import Mathlib

/-
Shallow embedding of the gauge rendering and color-mapping core of
src/main.py (classes ResourceBubble and ResourceMonitor).

Python floats are modelled as rationals; all inputs of interest in the
claims are exactly representable, and none of the settled claims depends
on binary floating-point rounding. Python `int(x)` truncates toward zero
and `f"\x7bx:.0f\x7d"` rounds half to even; both are modelled explicitly
below. The source formats colors as hex strings `#rrggbb`; since that
encoding is injective on channel values 0..255, colors are modelled as
their RGB channel triple.
-/

namespace SRM

/-- An RGB color triple, the content of the hex string the source builds. -/
structure RGB where
  r : ℤ
  g : ℤ
  b : ℤ
deriving DecidableEq

/-- Python int() applied to a real number: truncation toward zero. -/
def pyInt (q : ℚ) : ℤ :=
  if q < 0 then ⌈q⌉ else ⌊q⌋

/-- The integer produced by Python float formatting with ".0f":
round half to even. -/
def roundHalfEven (q : ℚ) : ℤ :=
  if q - ⌊q⌋ < 1 / 2 then ⌊q⌋
  else if q - ⌊q⌋ > 1 / 2 then ⌊q⌋ + 1
  else if ⌊q⌋ % 2 = 0 then ⌊q⌋ else ⌊q⌋ + 1

/-- Python formatting with ".0f" as a string: the rounded integer, except
that a negative value rounding to zero prints as "-0". -/
def pyFmtDot0 (q : ℚ) : String :=
  if q < 0 ∧ roundHalfEven q = 0 then "-0" else toString (roundHalfEven q)

/-- ResourceBubble.interpolate_color (src/main.py lines 60-78): green to
yellow for percent at most 50, yellow to red above, channels computed
with Python int(). -/
def interpolate_color (value_percent : ℚ) : RGB :=
  if value_percent ≤ 50 then
    let frac := value_percent / 50
    ⟨pyInt (76 + (255 - 76) * frac),
     pyInt (175 + (235 - 175) * frac),
     pyInt (80 - 80 * frac)⟩
  else
    let frac := (value_percent - 50) / 50
    ⟨255,
     pyInt (235 - (235 - 82) * frac),
     pyInt (59 * (1 - frac))⟩

/-- ResourceBubble.interpolate_temperature_color (src/main.py lines
80-110): flat green below 50, then three interpolated bands with strict
upper bounds; the constant "#4CAF50" is the triple (76, 175, 80). -/
def interpolate_temperature_color (temp_celsius : ℚ) : RGB :=
  if temp_celsius < 50 then
    ⟨76, 175, 80⟩
  else if temp_celsius < 60 then
    let frac := (temp_celsius - 50) / 10
    ⟨pyInt (76 + (255 - 76) * frac),
     pyInt (175 + (235 - 175) * frac),
     pyInt (80 - 80 * frac)⟩
  else if temp_celsius < 70 then
    let frac := (temp_celsius - 60) / 10
    ⟨255,
     pyInt (235 - (235 - 165) * frac),
     pyInt (59 * (1 - frac))⟩
  else
    let frac := min ((temp_celsius - 70) / 30) 1
    ⟨255,
     pyInt (165 - (165 - 82) * frac),
     pyInt (59 * (1 - frac))⟩

/-- The state of one ResourceBubble (src/main.py lines 18-58): the
constructor arguments and stored value, plus the mutable render state the
widget keeps on the canvas (fill rectangle width, fill color, value
text). -/
structure ResourceBubble where
  x : ℚ
  y : ℚ
  width : ℚ
  height : ℚ
  label : String
  max_value : ℚ
  unit : String
  value : ℚ
  is_temperature : Bool
  fill_width : ℚ
  fill_color : RGB
  value_text : String
deriving DecidableEq

/-- ResourceBubble.__init__ (src/main.py lines 21-58): value starts at 0,
the fill rectangle starts with zero width and color "#4CAF50", and the
value text starts as "0" followed by the unit. -/
def ResourceBubble.init (x y width height : ℚ) (label : String)
    (max_value : ℚ) (unit : String) (is_temperature : Bool) :
    ResourceBubble :=
  { x := x, y := y, width := width, height := height, label := label,
    max_value := max_value, unit := unit, value := 0,
    is_temperature := is_temperature, fill_width := 0,
    fill_color := ⟨76, 175, 80⟩, value_text := "0" ++ unit }

/-- ResourceBubble.update (src/main.py lines 112-138): clamp the value to
max_value with min, recompute the fill width, recolor (temperature ramp
when is_temperature, else the linear ramp on the percent), and reformat
the value text (Python int() for the Celsius unit, ".0f" otherwise). -/
def ResourceBubble.update (b : ResourceBubble) (value : ℚ) :
    ResourceBubble :=
  let v := min value b.max_value
  let value_percent := v / b.max_value * 100
  let fill_width := v / b.max_value * b.width
  let color :=
    if b.is_temperature then interpolate_temperature_color v
    else interpolate_color value_percent
  let text :=
    if b.unit = "°C" then toString (pyInt v) ++ b.unit
    else pyFmtDot0 v ++ b.unit
  { b with value := v, fill_width := fill_width, fill_color := color,
           value_text := text }

/-- The update operation over a number-or-absence, as realized at the call
site ResourceMonitor.update_bubbles (src/main.py lines 330-343): an
absent value is dispatched as update(0). This is the Gauge.update of the
spec, whose input domain is float or None. -/
def ResourceBubble.updateOpt (b : ResourceBubble) (value : Option ℚ) :
    ResourceBubble :=
  match value with
  | some v => b.update v
  | none => b.update 0

/-- The fillRatio of the derived RenderState: stored value over max_value
(equivalently fill_width over width, src/main.py line 118). -/
def fillFrac (b : ResourceBubble) : ℚ :=
  b.value / b.max_value

/-- The five bubbles owned by ResourceMonitor. -/
structure Dashboard where
  cpu_bubble : ResourceBubble
  ram_bubble : ResourceBubble
  gpu_bubble : ResourceBubble
  vram_bubble : ResourceBubble
  temp_bubble : ResourceBubble
deriving DecidableEq

/-- ResourceMonitor.create_widgets (src/main.py lines 195-231): five
bubbles of size 85 by 30 at y 5, 3 apart, starting at x 5: CPU, RAM, GPU
and VRAM in percent, and Temp in Celsius with the temperature ramp. -/
def freshDashboard : Dashboard :=
  { cpu_bubble := ResourceBubble.init 5 5 85 30 "CPU" 100 "%" false,
    ram_bubble := ResourceBubble.init 93 5 85 30 "RAM" 100 "%" false,
    gpu_bubble := ResourceBubble.init 181 5 85 30 "GPU" 100 "%" false,
    vram_bubble := ResourceBubble.init 269 5 85 30 "VRAM" 100 "%" false,
    temp_bubble := ResourceBubble.init 357 5 85 30 "Temp" 100 "°C" true }

/-- One cycle's readings (the Sample of the spec): CPU and RAM percent
always present, GPU load, VRAM percent and GPU temperature optional. -/
structure Sample where
  cpu : ℚ
  ram : ℚ
  gpu : Option ℚ
  vram : Option ℚ
  temp : Option ℚ

/-- ResourceMonitor.update_bubbles (src/main.py lines 325-343): each field
is routed to its bubble; an absent GPU, VRAM or temperature reading is
replaced by 0. -/
def update_bubbles (d : Dashboard) (s : Sample) : Dashboard :=
  { cpu_bubble := d.cpu_bubble.update s.cpu,
    ram_bubble := d.ram_bubble.update s.ram,
    gpu_bubble :=
      match s.gpu with
      | some g => d.gpu_bubble.update g
      | none => d.gpu_bubble.update 0,
    vram_bubble :=
      match s.vram with
      | some v => d.vram_bubble.update v
      | none => d.vram_bubble.update 0,
    temp_bubble :=
      match s.temp with
      | some t => d.temp_bubble.update t
      | none => d.temp_bubble.update 0 }

/-- One GPU as reported by the backend: load and memory utilization as
fractions, and an optional temperature attribute. -/
structure Gpu where
  load : ℚ
  memoryUtil : ℚ
  temperature : Option ℚ

/-- The environment the GPU query runs against: whether the GPUtil backend
imported (GPU_AVAILABLE, src/main.py lines 11-15), and what its getGPUs
call does at runtime, either raising or returning a list of GPUs. -/
structure GpuEnv where
  gpu_available : Bool
  query : Except String (List Gpu)

/-- ResourceMonitor.get_gpu_stats (src/main.py lines 283-299): without a
backend, (None, None, None); with one, the first GPU's load and memory
utilization scaled to percent plus its temperature, while an empty list
or a raised exception (caught and logged) also yields (None, None, None).
Returns the result triple paired with the log lines printed. -/
def get_gpu_stats (env : GpuEnv) :
    (Option ℚ × Option ℚ × Option ℚ) × List String :=
  if env.gpu_available = false then ((none, none, none), [])
  else
    match env.query with
    | Except.error e => ((none, none, none), ["GPU stats error: " ++ e])
    | Except.ok [] => ((none, none, none), [])
    | Except.ok (g :: _) =>
        ((some (g.load * 100), some (g.memoryUtil * 100), g.temperature),
         [])

/-- A color lies in the yellow-to-red band of the linear ramp: it is the
ramp's output at some percent strictly above 50 (and at most 100). -/
def inYellowToRedBand (c : RGB) : Prop :=
  ∃ p : ℚ, 50 < p ∧ p ≤ 100 ∧ c = interpolate_color p

/-- The CPU bubble as created by the dashboard. -/
def cpuBubble : ResourceBubble :=
  ResourceBubble.init 5 5 85 30 "CPU" 100 "%" false

/-- The temperature bubble as created by the dashboard. -/
def tempBubble : ResourceBubble :=
  ResourceBubble.init 357 5 85 30 "Temp" 100 "°C" true

/-- The end-to-end sample of the spec: cpu 75, ram 40, no GPU readings. -/
def sampleCpu75 : Sample :=
  { cpu := 75, ram := 40, gpu := none, vram := none, temp := none }

/-- The fresh dashboard after applying that sample. -/
def d75 : Dashboard :=
  update_bubbles freshDashboard sampleCpu75

/-- On a nonnegative argument Python int() is the floor. -/
lemma pyInt_eq_floor (q : ℚ) (h : 0 ≤ q) : pyInt q = ⌊q⌋ := by
  unfold pyInt
  rw [if_neg (not_lt.mpr h)]

/-- Python int() lands within distance one of its argument. -/
lemma abs_pyInt_sub_lt_one (q : ℚ) : |(pyInt q : ℚ) - q| < 1 := by
  unfold pyInt
  split_ifs with h
  · rw [abs_sub_lt_iff]
    have hc1 : (⌈q⌉ : ℚ) < q + 1 := Int.ceil_lt_add_one q
    have hc2 : q ≤ (⌈q⌉ : ℚ) := Int.le_ceil q
    constructor <;> linarith
  · rw [abs_sub_lt_iff]
    have hf1 : (⌊q⌋ : ℚ) ≤ q := Int.floor_le q
    have hf2 : q < (⌊q⌋ : ℚ) + 1 := Int.lt_floor_add_one q
    constructor <;> linarith

/-- Rounding half to even lands within half a unit of its argument. -/
lemma abs_roundHalfEven_sub_le_half (q : ℚ) :
    |(roundHalfEven q : ℚ) - q| ≤ 1 / 2 := by
  unfold roundHalfEven
  have h0 : (⌊q⌋ : ℚ) ≤ q := Int.floor_le q
  have h1 : q < (⌊q⌋ : ℚ) + 1 := Int.lt_floor_add_one q
  split_ifs with ha hb hc
  · rw [abs_sub_le_iff]
    constructor <;> linarith
  · push_cast
    rw [abs_sub_le_iff]
    constructor <;> linarith
  · have he : q - (⌊q⌋ : ℚ) = 1 / 2 := by linarith
    rw [abs_sub_le_iff]
    constructor <;> linarith
  · have he : q - (⌊q⌋ : ℚ) = 1 / 2 := by linarith
    push_cast
    rw [abs_sub_le_iff]
    constructor <;> linarith

/-- Claim C1, counterexample: update with the negative raw value -1 on a
gauge with max_value 100 stores -1, so the lower half of the claimed
invariant 0 ≤ currentValue fails on negative inputs. -/
theorem update_negative_not_lower_clamped :
    (cpuBubble.update (-1)).value = -1
    ∧ ¬ 0 ≤ (cpuBubble.update (-1)).value := by
  have h : (cpuBubble.update (-1)).value = -1 := by
    norm_num [cpuBubble, ResourceBubble.update, ResourceBubble.init, min_def]
  refine ⟨h, ?_⟩
  rw [h]
  norm_num

/-- Claim C1, amended: after update the stored value never exceeds
max_value, for every raw input, negative ones included; it is moreover
nonnegative whenever both the raw input and max_value are nonnegative,
while negative raw inputs are not clamped below. -/
theorem update_clamps_upper_and_keeps_nonneg (b : ResourceBubble) (v : ℚ) :
    (b.update v).value ≤ b.max_value
    ∧ (0 ≤ v → 0 ≤ b.max_value → 0 ≤ (b.update v).value) := by
  have h : (b.update v).value = min v b.max_value := rfl
  rw [h]
  exact ⟨min_le_right _ _, fun hv hm => le_min hv hm⟩

theorem update_clamps_upper_witness :
    (cpuBubble.update 150).value ≤ cpuBubble.max_value
    ∧ 0 ≤ (cpuBubble.update 150).value :=
  ⟨(update_clamps_upper_and_keeps_nonneg cpuBubble 150).1,
   (update_clamps_upper_and_keeps_nonneg cpuBubble 150).2 (by norm_num)
     (by norm_num [cpuBubble, ResourceBubble.init])⟩

/-- Claim C2: an absent reading is dispatched as update(0), so for any
gauge with positive max_value the stored value becomes 0, the fill ratio
and fill width become 0, and the value text is "0" followed by the unit;
no branch can fail. -/
theorem updateOpt_none_zeroes (b : ResourceBubble) (h : 0 < b.max_value) :
    (b.updateOpt none).value = 0
    ∧ fillFrac (b.updateOpt none) = 0
    ∧ (b.updateOpt none).fill_width = 0
    ∧ (b.updateOpt none).value_text = "0" ++ b.unit := by
  have hv : (b.updateOpt none).value = 0 := by
    show min 0 b.max_value = 0
    exact min_eq_left h.le
  have hmax : (b.updateOpt none).max_value = b.max_value := rfl
  refine ⟨hv, ?_, ?_, ?_⟩
  · unfold fillFrac
    rw [hv, hmax, zero_div]
  · show min 0 b.max_value / b.max_value * b.width = 0
    rw [min_eq_left h.le, zero_div, zero_mul]
  · show (if b.unit = "°C" then toString (pyInt (min 0 b.max_value)) ++ b.unit
          else pyFmtDot0 (min 0 b.max_value) ++ b.unit) = "0" ++ b.unit
    rw [min_eq_left h.le]
    have hz1 : pyInt (0 : ℚ) = 0 := by norm_num [pyInt]
    have hz2 : pyFmtDot0 (0 : ℚ) = "0" := by
      norm_num [pyFmtDot0, roundHalfEven]
      rfl
    split_ifs with hu
    · rw [hz1, show toString (0 : ℤ) = "0" from rfl]
    · rw [hz2]

theorem updateOpt_none_zeroes_witness :
    (cpuBubble.updateOpt none).value = 0
    ∧ fillFrac (cpuBubble.updateOpt none) = 0
    ∧ (cpuBubble.updateOpt none).fill_width = 0
    ∧ (cpuBubble.updateOpt none).value_text = "0" ++ cpuBubble.unit :=
  updateOpt_none_zeroes cpuBubble
    (by norm_num [cpuBubble, ResourceBubble.init])

/-- Claim C3: the linear ramp hits its three endpoints exactly: percent 0
gives (76, 175, 80), percent 50 gives (255, 235, 0), and percent 100
gives (255, 82, 0). -/
theorem linear_ramp_endpoints :
    interpolate_color 0 = ⟨76, 175, 80⟩
    ∧ interpolate_color 50 = ⟨255, 235, 0⟩
    ∧ interpolate_color 100 = ⟨255, 82, 0⟩ := by
  refine ⟨?_, ?_, ?_⟩ <;> norm_num [interpolate_color, pyInt]

/-- Claim C4, counterexample: at percent 1 the red channel is
int(79.58) = 79, while rounding to nearest would give 80, so channels are
not computed with round. -/
theorem linear_ramp_channel_not_round :
    (interpolate_color 1).r = 79
    ∧ round ((76 : ℚ) + (255 - 76) * (1 / 50)) = 80
    ∧ (interpolate_color 1).r ≠ round ((76 : ℚ) + (255 - 76) * (1 / 50)) := by
  have h1 : (interpolate_color 1).r = 79 := by
    norm_num [interpolate_color, pyInt]
  have h2 : round ((76 : ℚ) + (255 - 76) * (1 / 50)) = 80 := by
    norm_num [round_eq]
  refine ⟨h1, h2, ?_⟩
  rw [h1, h2]
  norm_num

/-- Claim C4, amended: for percent in the 0 to 100 domain every
interpolated channel equals the floor (Python int() on these nonnegative
quantities) of start plus (end minus start) times ratio; the upper-branch
red channel is the constant 255. -/
theorem linear_ramp_channels_floor (p : ℚ) (h0 : 0 ≤ p) (h1 : p ≤ 100) :
    (p ≤ 50 → interpolate_color p =
      ⟨⌊(76 : ℚ) + (255 - 76) * (p / 50)⌋,
       ⌊(175 : ℚ) + (235 - 175) * (p / 50)⌋,
       ⌊(80 : ℚ) - 80 * (p / 50)⌋⟩)
    ∧ (50 < p → interpolate_color p =
      ⟨255,
       ⌊(235 : ℚ) - (235 - 82) * ((p - 50) / 50)⌋,
       ⌊(59 : ℚ) * (1 - (p - 50) / 50)⌋⟩) := by
  constructor
  · intro hle
    have hq0 : 0 ≤ p / 50 := by positivity
    have hq1 : p / 50 ≤ 1 := by
      rw [div_le_one (by norm_num : (0 : ℚ) < 50)]
      linarith
    simp only [interpolate_color, if_pos hle, RGB.mk.injEq]
    refine ⟨?_, ?_, ?_⟩ <;> apply pyInt_eq_floor <;> nlinarith
  · intro hgt
    have hq0 : 0 ≤ (p - 50) / 50 := by
      apply div_nonneg (by linarith) (by norm_num)
    have hq1 : (p - 50) / 50 ≤ 1 := by
      rw [div_le_one (by norm_num : (0 : ℚ) < 50)]
      linarith
    simp only [interpolate_color, if_neg (not_le.mpr hgt), RGB.mk.injEq]
    refine ⟨trivial, ?_, ?_⟩ <;> apply pyInt_eq_floor <;> nlinarith

theorem linear_ramp_channels_floor_witness :
    interpolate_color 30 =
      ⟨⌊(76 : ℚ) + (255 - 76) * (30 / 50)⌋,
       ⌊(175 : ℚ) + (235 - 175) * (30 / 50)⌋,
       ⌊(80 : ℚ) - 80 * (30 / 50)⌋⟩ :=
  (linear_ramp_channels_floor 30 (by norm_num) (by norm_num)).1
    (by norm_num)

/-- Claim C5: each temperature band has a strict upper bound, so exactly
50 takes the green to yellow branch at ratio 0 giving (76, 175, 80),
exactly 60 takes the yellow to orange branch at ratio 0 giving
(255, 235, 59), and exactly 70 takes the orange to red branch at ratio 0
giving (255, 165, 59). -/
theorem temperature_ramp_boundaries :
    interpolate_temperature_color 50 = ⟨76, 175, 80⟩
    ∧ interpolate_temperature_color 60 = ⟨255, 235, 59⟩
    ∧ interpolate_temperature_color 70 = ⟨255, 165, 59⟩ := by
  refine ⟨?_, ?_, ?_⟩ <;> norm_num [interpolate_temperature_color, pyInt]

/-- Claim C6, counterexample: at 55 degrees, strictly above 50, the red
channel is 165 rather than 255, and at 50 degrees the interpolated blue
channel is 80 while round of 59 times (1 minus ratio) at ratio 0 is
59. -/
theorem temperature_red_blue_claim_false :
    (50 : ℚ) < 55
    ∧ (interpolate_temperature_color 55).r = 165
    ∧ (interpolate_temperature_color 55).r ≠ 255
    ∧ (interpolate_temperature_color 50).b = 80
    ∧ round ((59 : ℚ) * (1 - (50 - 50) / 10)) = 59
    ∧ (interpolate_temperature_color 50).b
        ≠ round ((59 : ℚ) * (1 - (50 - 50) / 10)) := by
  have h55 : (interpolate_temperature_color 55).r = 165 := by
    norm_num [interpolate_temperature_color, pyInt]
  have h50 : (interpolate_temperature_color 50).b = 80 := by
    norm_num [interpolate_temperature_color, pyInt]
  have hrd : round ((59 : ℚ) * (1 - (50 - 50) / 10)) = 59 := by
    norm_num [round_eq]
  refine ⟨by norm_num, h55, ?_, h50, hrd, ?_⟩
  · rw [h55]; norm_num
  · rw [h50, hrd]; norm_num

/-- Claim C6, amended: the red channel is the constant 255 at and above
60 degrees; the blue channel is int(80 minus 80 times ratio) in the green
to yellow band, int(59 times (1 minus ratio)) in the yellow to orange and
orange to red bands, and 0 at and above 100 degrees where the ratio is
capped at 1. -/
theorem temperature_red_blue_amended (t : ℚ) :
    (60 ≤ t → (interpolate_temperature_color t).r = 255)
    ∧ (100 ≤ t → (interpolate_temperature_color t).b = 0)
    ∧ (50 ≤ t → t < 60 →
        (interpolate_temperature_color t).b
          = pyInt (80 - 80 * ((t - 50) / 10)))
    ∧ (60 ≤ t → t < 70 →
        (interpolate_temperature_color t).b
          = pyInt (59 * (1 - (t - 60) / 10)))
    ∧ (70 ≤ t →
        (interpolate_temperature_color t).b
          = pyInt (59 * (1 - min ((t - 70) / 30) 1))) := by
  unfold interpolate_temperature_color
  split_ifs with h1 h2 h3
  · exact ⟨fun h => by linarith, fun h => by linarith,
      fun ha _ => by linarith, fun h _ => by linarith,
      fun h => by linarith⟩
  · exact ⟨fun h => by linarith, fun h => by linarith,
      fun _ _ => rfl, fun h _ => by linarith, fun h => by linarith⟩
  · rw [not_lt] at h2
    exact ⟨fun _ => rfl, fun h => by linarith,
      fun _ hb => by linarith, fun _ _ => rfl, fun h => by linarith⟩
  · rw [not_lt] at h2 h3
    refine ⟨fun _ => rfl, ?_, fun _ hb => by linarith,
      fun _ hb => by linarith, fun _ => rfl⟩
    intro h
    have hm : min ((t - 70) / 30) 1 = 1 := by
      apply min_eq_right
      rw [le_div_iff₀ (by norm_num : (0 : ℚ) < 30)]
      linarith
    rw [hm]
    norm_num [pyInt]

theorem temperature_red_blue_amended_witness :
    (interpolate_temperature_color 65).r = 255
    ∧ (interpolate_temperature_color 65).b
        = pyInt (59 * (1 - ((65 : ℚ) - 60) / 10))
    ∧ (interpolate_temperature_color 100).b = 0 :=
  ⟨(temperature_red_blue_amended 65).1 (by norm_num),
   (temperature_red_blue_amended 65).2.2.2.1 (by norm_num) (by norm_num),
   (temperature_red_blue_amended 100).2.1 (by norm_num)⟩

/-- Claim C7: applying the sample with cpu 75, ram 40 and the three GPU
fields absent to a fresh dashboard puts the CPU gauge at fill ratio 3/4
with a color from the yellow to red half of the linear ramp, while the
GPU, VRAM and Temp gauges all store value 0 with fill ratio 0 and green
(76, 175, 80) coloring; absence yields a zero reading, never a failure. -/
theorem dashboard_sample_end_to_end :
    fillFrac d75.cpu_bubble = 3 / 4
    ∧ inYellowToRedBand d75.cpu_bubble.fill_color
    ∧ d75.gpu_bubble.value = 0
    ∧ fillFrac d75.gpu_bubble = 0
    ∧ d75.gpu_bubble.fill_color = ⟨76, 175, 80⟩
    ∧ d75.vram_bubble.value = 0
    ∧ fillFrac d75.vram_bubble = 0
    ∧ d75.vram_bubble.fill_color = ⟨76, 175, 80⟩
    ∧ d75.temp_bubble.value = 0
    ∧ fillFrac d75.temp_bubble = 0
    ∧ d75.temp_bubble.fill_color = ⟨76, 175, 80⟩ := by
  have hcpu : d75.cpu_bubble.fill_color = ⟨255, 158, 29⟩ := by
    norm_num [d75, update_bubbles, freshDashboard, sampleCpu75,
      ResourceBubble.update, ResourceBubble.init, min_def,
      interpolate_color, pyInt]
  have h75 : interpolate_color 75 = ⟨255, 158, 29⟩ := by
    norm_num [interpolate_color, pyInt]
  have hgc : d75.gpu_bubble.fill_color = ⟨76, 175, 80⟩ := by
    norm_num [d75, update_bubbles, freshDashboard, sampleCpu75,
      ResourceBubble.update, ResourceBubble.init, min_def,
      interpolate_color, pyInt]
  have hvc : d75.vram_bubble.fill_color = ⟨76, 175, 80⟩ := by
    norm_num [d75, update_bubbles, freshDashboard, sampleCpu75,
      ResourceBubble.update, ResourceBubble.init, min_def,
      interpolate_color, pyInt]
  have htc : d75.temp_bubble.fill_color = ⟨76, 175, 80⟩ := by
    norm_num [d75, update_bubbles, freshDashboard, sampleCpu75,
      ResourceBubble.update, ResourceBubble.init, min_def,
      interpolate_temperature_color, pyInt]
  refine ⟨?_, ⟨75, by norm_num, by norm_num, by rw [hcpu, h75]⟩,
    ?_, ?_, hgc, ?_, ?_, hvc, ?_, ?_, htc⟩ <;>
      norm_num [d75, fillFrac, update_bubbles, freshDashboard, sampleCpu75,
        ResourceBubble.update, ResourceBubble.init, min_def]

/-- Claim C8: the GPU query returns a plain value and never propagates a
failure: without a backend it yields the triple of three absent readings
and logs nothing, and with a backend whose query raises it yields the
same triple while logging the error, so a GPU failure cannot crash the
sampling loop. -/
theorem gpu_stats_never_raises (env : GpuEnv) :
    (env.gpu_available = false →
      get_gpu_stats env = ((none, none, none), []))
    ∧ (∀ e, env.gpu_available = true → env.query = Except.error e →
        (get_gpu_stats env).1 = (none, none, none)
        ∧ (get_gpu_stats env).2 = ["GPU stats error: " ++ e]) := by
  constructor
  · intro h
    unfold get_gpu_stats
    rw [h]
    rfl
  · intro e ha hq
    unfold get_gpu_stats
    rw [ha, hq]
    exact ⟨rfl, rfl⟩

theorem gpu_stats_never_raises_witness :
    get_gpu_stats ⟨false, Except.ok []⟩ = ((none, none, none), [])
    ∧ (get_gpu_stats ⟨true, Except.error "driver error"⟩).1
        = (none, none, none) :=
  ⟨(gpu_stats_never_raises ⟨false, Except.ok []⟩).1 rfl,
   ((gpu_stats_never_raises ⟨true, Except.error "driver error"⟩).2
     "driver error" rfl rfl).1⟩

/-- Claim C9, counterexample: on the Celsius gauge, updating with 67.9
displays "67" followed by the unit, because the source truncates with
Python int(), while the rounded value would display as "68". -/
theorem display_text_not_rounded_celsius :
    (tempBubble.update (679 / 10)).value_text = "67" ++ "°C"
    ∧ toString (round ((tempBubble.update (679 / 10)).value))
        ++ tempBubble.unit = "68" ++ "°C"
    ∧ (tempBubble.update (679 / 10)).value_text
        ≠ toString (round ((tempBubble.update (679 / 10)).value))
            ++ tempBubble.unit := by
  have hval : (tempBubble.update (679 / 10)).value = 679 / 10 := by
    norm_num [tempBubble, ResourceBubble.update, ResourceBubble.init,
      min_def]
  have h1 : (tempBubble.update (679 / 10)).value_text = "67" ++ "°C" := by
    norm_num [tempBubble, ResourceBubble.update, ResourceBubble.init,
      min_def, pyInt]
    rfl
  have hrd : round ((679 : ℚ) / 10) = 68 := by norm_num [round_eq]
  have h2 : toString (round ((tempBubble.update (679 / 10)).value))
      ++ tempBubble.unit = "68" ++ "°C" := by
    rw [hval, hrd]
    rfl
  refine ⟨h1, h2, ?_⟩
  rw [h1, h2]
  decide

/-- Claim C9, amended: after update the value text is an integer string
with no decimal places followed by the unit: the Python int() truncation
of the stored value for the Celsius unit and the Python ".0f" formatting
(round half to even) otherwise; each of the two integers lies within one
unit, respectively half a unit, of the stored value. -/
theorem display_text_integer_formats (b : ResourceBubble) (v : ℚ) :
    (b.update v).value_text =
      (if b.unit = "°C" then toString (pyInt (b.update v).value)
       else pyFmtDot0 (b.update v).value) ++ b.unit
    ∧ |(pyInt (b.update v).value : ℚ) - (b.update v).value| < 1
    ∧ |(roundHalfEven (b.update v).value : ℚ) - (b.update v).value|
        ≤ 1 / 2 := by
  refine ⟨?_, abs_pyInt_sub_lt_one _, abs_roundHalfEven_sub_le_half _⟩
  show (if b.unit = "°C" then toString (pyInt (min v b.max_value)) ++ b.unit
        else pyFmtDot0 (min v b.max_value) ++ b.unit) = _
  split_ifs <;> rfl

/-- Claim C10: update rewrites only the stored value and the derived
render state; the label, unit, max_value, temperature flag and the
geometry x, y, width and height are unchanged. -/
theorem update_keeps_static_fields (b : ResourceBubble) (v : ℚ) :
    (b.update v).label = b.label
    ∧ (b.update v).unit = b.unit
    ∧ (b.update v).max_value = b.max_value
    ∧ (b.update v).is_temperature = b.is_temperature
    ∧ (b.update v).x = b.x
    ∧ (b.update v).y = b.y
    ∧ (b.update v).width = b.width
    ∧ (b.update v).height = b.height :=
  ⟨rfl, rfl, rfl, rfl, rfl, rfl, rfl, rfl⟩

end SRM
